import Mathlib

/-!
Verification development for the PiCarX navigation decision engine.

The definitions below are a shallow embedding of the Python source:

* `main.py` — the per-tick line-tracking loop: `get_status` (line-state
  classifier), `avoid_obstacles` (obstacle-distance arbiter), `outHandle`
  (line-loss recovery) and `line_track` (the tick), plus the
  producer/consumer snapshot queue of `PiCarXController` (`mp.Queue()`).
* `src/control/navigator.py` — the `Navigator` state machine:
  `update_from_vision`, `follow_line`, `handle_sign`, `handle_stop_sign`,
  `handle_turn_sign`.

Side effects (servo/motor calls, sensor reads, sleeps, state assignments)
are reified as explicit event lists so that theorems can speak about which
directives a tick issues and in which order.  A call that raises an
exception is modelled as issuing nothing; the points where the Python code
can raise are enumerated by explicit failure oracles.
-/

namespace PiCarX

/-- The four string values `get_status` can return:
`'stop'`, `'forward'`, `'right'`, `'left'`. -/
inductive LTState where
  | stop
  | forward
  | left
  | right
deriving DecidableEq, Repr

/-- Actions performed on the `px` robot object by the `main.py` functions.
`readGrayscale` records a call to `px.get_grayscale_data()`. -/
inductive PxAct where
  | setDirServoAngle (a : ℤ)
  | forward (speed : ℕ)
  | backward (speed : ℕ)
  | sleep (ms : ℕ)
  | readGrayscale
deriving DecidableEq, Repr

/-- `LINE_TRACK_SPEED = 10` in `main.py`. -/
def LINE_TRACK_SPEED : ℕ := 10

/-- `LINE_TRACK_ANGLE_OFFSET = 20` in `main.py`. -/
def LINE_TRACK_ANGLE_OFFSET : ℤ := 20

/-- `AVOID_OBSTACLES_SPEED = 40` in `main.py`. -/
def AVOID_OBSTACLES_SPEED : ℕ := 40

/-- `SafeDistance = 40` in `main.py`. -/
def SafeDistance : ℚ := 40

/-- `DangerDistance = 20` in `main.py`. -/
def DangerDistance : ℚ := 20

/-- `get_status(px, val_list)` from `main.py`, embedded from the binarized
reading `_state = px.get_line_status(val_list)` onward.  The Python
function returns `None` when no branch matches (`Option`); a list that is
not of length 3 would raise an `IndexError`, also modelled as `none`. -/
def get_status (state : List ℕ) : Option LTState :=
  if state = [0, 0, 0] then some .stop
  else
    match state with
    | [l, c, r] =>
      if c = 1 then some .forward
      else if l = 1 then some .right
      else if r = 1 then some .left
      else none
    | _ => none

/-- `avoid_obstacles(px)` from `main.py`.  The input is the rounded
ultrasonic reading, `none` when `px.ultrasonic.read()` raised (the
`except` path).  Output: the motor/servo actions performed and the
distance value returned to the caller. -/
def avoid_obstacles (reading : Option ℚ) : List PxAct × ℚ :=
  match reading with
  | none => ([], SafeDistance + 1)
  | some distance =>
    if distance < 0 ∨ distance > 1000 then ([], SafeDistance + 1)
    else if SafeDistance ≤ distance then
      ([.setDirServoAngle 0, .forward AVOID_OBSTACLES_SPEED], distance)
    else if DangerDistance ≤ distance then
      ([.setDirServoAngle 30, .forward AVOID_OBSTACLES_SPEED, .sleep 100], distance)
    else
      ([.setDirServoAngle (-30), .backward AVOID_OBSTACLES_SPEED, .sleep 500], distance)

/-- The two initial recovery actions of `outHandle(px, last_line_state)`
(`main.py`): steer to the opposite extreme and back up when the last state
was a correction state. -/
def outHandleInit (last : Option LTState) : List PxAct :=
  if last = some .left then [.setDirServoAngle (-30), .backward 10]
  else if last = some .right then [.setDirServoAngle 30, .backward 10]
  else []

/-- The `while True` polling loop of `outHandle`: resample the grayscale
sensor and break when `get_status` of the fresh reading differs from
`last_line_state`.  `readings n` is the n-th resampled reading; `fuel`
bounds the number of iterations we unroll (the source loop is unbounded,
so fuel exhaustion models non-termination and returns `false`). -/
def outHandleLoop (last : Option LTState) (readings : ℕ → List ℕ) :
    ℕ → List PxAct × Bool
  | 0 => ([], false)
  | n + 1 =>
    if get_status (readings 0) ≠ last then ([.readGrayscale], true)
    else
      let rest := outHandleLoop last (fun i => readings (i + 1)) n
      (.readGrayscale :: rest.1, rest.2)

/-- `outHandle(px, last_line_state)` from `main.py`: the initial recovery
maneuver, then the polling loop; the `sleep(0.001)` sits after the loop
and therefore only runs once the loop has exited.  The boolean reports
whether the loop exited within `fuel` samples. -/
def outHandle (last : Option LTState) (readings : ℕ → List ℕ) (fuel : ℕ) :
    List PxAct × Bool :=
  let lp := outHandleLoop last readings fuel
  (outHandleInit last ++ lp.1 ++ (if lp.2 then [.sleep 1] else []), lp.2)

/-- `line_track(px, last_line_state)` from `main.py`.  `distReading` feeds
`avoid_obstacles`; `readings 0` is the grayscale reading of this tick and
`readings (n+1)` the n-th resample inside `outHandle`.  Returns the
actions of the tick and the new `last_line_state` (an `Option` because
Python assigns `last_line_state = gm_state` for every `gm_state != "stop"`,
including `None`). -/
def line_track (distReading : Option ℚ) (readings : ℕ → List ℕ) (fuel : ℕ)
    (last : Option LTState) : List PxAct × Option LTState :=
  let ao := avoid_obstacles distReading
  if ao.2 < SafeDistance then (ao.1, last)
  else
    let gm := get_status (readings 0)
    if gm ≠ some .stop then
      match gm with
      | some .forward =>
        (ao.1 ++ [.readGrayscale, .setDirServoAngle 0, .forward LINE_TRACK_SPEED], gm)
      | some .left =>
        (ao.1 ++ [.readGrayscale, .setDirServoAngle LINE_TRACK_ANGLE_OFFSET,
          .forward LINE_TRACK_SPEED], gm)
      | some .right =>
        (ao.1 ++ [.readGrayscale, .setDirServoAngle (-LINE_TRACK_ANGLE_OFFSET),
          .forward LINE_TRACK_SPEED], gm)
      | _ => (ao.1 ++ [.readGrayscale], gm)
    else
      let oh := outHandle last (fun i => readings (i + 1)) fuel
      (ao.1 ++ [.readGrayscale] ++ oh.1, last)

/-- A motion directive commands the drive motors (`forward`/`backward`). -/
def PxAct.isMotion : PxAct → Bool
  | .forward _ => true
  | .backward _ => true
  | _ => false

/-- Number of motion directives in an action list. -/
def motionCount (acts : List PxAct) : ℕ := (acts.filter PxAct.isMotion).length

/-! ## Navigator (`src/control/navigator.py`) -/

/-- `NavigationState` enum of `navigator.py` (source naming kept). -/
inductive NavigationState where
  | SUIVRE_LIGNE
  | TRAITER_PANNEAU
  | ATTENTE_COMMANDE
  | ARRET
deriving DecidableEq, Repr

/-- Calls the `Navigator` issues on its `MotorController`. -/
inductive MotorDirective where
  | setSpeed (v : ℚ)
  | setSteering (a : ℚ)
  | stop
deriving DecidableEq, Repr

/-- Observable events of a `Navigator` method: motor-controller calls,
`time.sleep` calls (durations in milliseconds), and assignments to `self.state`. -/
inductive NavEvent where
  | motor (c : MotorDirective)
  | sleep (ms : ℕ)
  | setState (s : NavigationState)
deriving DecidableEq, Repr

/-- Sign classes the navigator dispatches on (`'STOP'`, `'GAUCHE'`,
`'DROITE'` in `handle_sign`). -/
inductive SignClass where
  | STOP
  | GAUCHE
  | DROITE
deriving DecidableEq, Repr

/-- A detected sign as the navigator reads it: `sign_info['class']`.
`cls = none` models a dict without a `'class'` key (the shape
`SignDetector.detect` actually produces), whose lookup raises `KeyError`. -/
structure Sign where
  cls : Option SignClass
deriving DecidableEq, Repr

/-- `line_info` dict: `detected` flag and optional `position` `(x, y)`. -/
structure LineInfo where
  detected : Bool
  position : Option (ℤ × ℤ)
deriving DecidableEq, Repr

/-- The mutable navigator fields the embedded methods touch:
`self.state` and `self.last_line_pos`. -/
structure NavSt where
  state : NavigationState
  lastLinePos : Option (ℤ × ℤ)
deriving DecidableEq, Repr

/-- `self.min_speed = 15` in `Navigator.__init__`. -/
def NAV_MIN_SPEED : ℚ := 15

/-- `self.base_speed = 30` in `Navigator.__init__`. -/
def NAV_BASE_SPEED : ℚ := 30

/-- `self.max_steering = 30` in `Navigator.__init__`. -/
def NAV_MAX_STEERING : ℚ := 30

/-- Failure oracle for `handle_stop_sign`: which call of the `try` body
raises, if any.  (`MotorController` methods swallow their own exceptions
in the source; the oracle makes the hypothetical raise explicit.) -/
inductive StopFail where
  | ok
  | atStop
  | atSleep
deriving DecidableEq, Repr

/-- Failure oracle for `handle_turn_sign`. -/
inductive TurnFail where
  | ok
  | atSetSpeed
  | atSetSteering
  | atSleep
  | atResetSteering
deriving DecidableEq, Repr

/-- `Navigator.handle_stop_sign`: `stop(); sleep(2); state := SUIVRE_LIGNE`
inside a `try`; the `except` branch only logs.  A raising call issues
nothing; calls before the raise have run.  Returns the events and the
value of `self.state` afterwards, given its value `st` on entry. -/
def handle_stop_sign (f : StopFail) (st : NavigationState) :
    List NavEvent × NavigationState :=
  match f with
  | .ok => ([.motor .stop, .sleep 2000, .setState .SUIVRE_LIGNE], .SUIVRE_LIGNE)
  | .atStop => ([], st)
  | .atSleep => ([.motor .stop], st)

/-- `Navigator.handle_turn_sign(angle)`: slow down, steer, hold, reset
steering, `state := SUIVRE_LIGNE`, all in a `try`; the `except` branch
logs and calls `self.motor_controller.stop()` but does not touch
`self.state`. -/
def handle_turn_sign (f : TurnFail) (angle : ℚ) (st : NavigationState) :
    List NavEvent × NavigationState :=
  match f with
  | .ok =>
    ([.motor (.setSpeed NAV_MIN_SPEED), .motor (.setSteering angle), .sleep 1000,
      .motor (.setSteering 0), .setState .SUIVRE_LIGNE], .SUIVRE_LIGNE)
  | .atSetSpeed => ([.motor .stop], st)
  | .atSetSteering => ([.motor (.setSpeed NAV_MIN_SPEED), .motor .stop], st)
  | .atSleep =>
    ([.motor (.setSpeed NAV_MIN_SPEED), .motor (.setSteering angle), .motor .stop], st)
  | .atResetSteering =>
    ([.motor (.setSpeed NAV_MIN_SPEED), .motor (.setSteering angle), .sleep 1000,
      .motor .stop], st)

/-- Failure oracles for one `handle_sign` invocation. -/
structure SignEnv where
  stopFail : StopFail
  turnFail : TurnFail
deriving DecidableEq, Repr

/-- `Navigator.handle_sign(sign_info)`: set `state := TRAITER_PANNEAU`,
read `sign_info['class']` and dispatch.  A missing `'class'` key raises
`KeyError`, which this method's own `except` turns into
`state := SUIVRE_LIGNE`; the sub-handlers catch their own exceptions, so
nothing else reaches this `except`. -/
def handle_sign (env : SignEnv) (sign : Sign) (_st : NavigationState) :
    List NavEvent × NavigationState :=
  match sign.cls with
  | none =>
    ([.setState .TRAITER_PANNEAU, .setState .SUIVRE_LIGNE], .SUIVRE_LIGNE)
  | some .STOP =>
    let r := handle_stop_sign env.stopFail .TRAITER_PANNEAU
    (.setState .TRAITER_PANNEAU :: r.1, r.2)
  | some .GAUCHE =>
    let r := handle_turn_sign env.turnFail (-90) .TRAITER_PANNEAU
    (.setState .TRAITER_PANNEAU :: r.1, r.2)
  | some .DROITE =>
    let r := handle_turn_sign env.turnFail 90 .TRAITER_PANNEAU
    (.setState .TRAITER_PANNEAU :: r.1, r.2)

/-- `Navigator.follow_line(line_info)`.  When the line is not detected:
keep going at `min_speed` if `self.last_line_pos` is truthy, otherwise
stop; return without touching `last_line_pos`.  When detected, compute
the steering from the position error; a `detected` record whose position
is `None` raises inside the `try` and the `except` stops the motors. -/
def follow_line (li : LineInfo) (st : NavSt) : List NavEvent × NavSt :=
  if li.detected = false then
    if st.lastLinePos.isSome then ([.motor (.setSpeed NAV_MIN_SPEED)], st)
    else ([.motor .stop], st)
  else
    match li.position with
    | none => ([.motor .stop], st)
    | some p =>
      let error : ℚ := ((p.1 : ℚ) - 320) / 320
      let steering : ℚ := -error * NAV_MAX_STEERING
      let speed : ℚ := max (NAV_BASE_SPEED * (1 - |error|)) NAV_MIN_SPEED
      ([.motor (.setSteering steering), .motor (.setSpeed speed)],
        { st with lastLinePos := some p })

/-- One vision payload as `navigation_process` hands it to the navigator. -/
structure VisionData where
  lineInfo : LineInfo
  signs : List Sign
deriving DecidableEq, Repr

/-- `Navigator.update_from_vision(vision_data)`: falsy data is ignored; a
non-empty sign list with state not already `TRAITER_PANNEAU` dispatches
`handle_sign(signs[0])`; otherwise line following runs only in state
`SUIVRE_LIGNE`. -/
def update_from_vision (env : SignEnv) (vd : Option VisionData) (st : NavSt) :
    List NavEvent × NavSt :=
  match vd with
  | none => ([], st)
  | some d =>
    match d.signs with
    | s :: _ =>
      if st.state ≠ .TRAITER_PANNEAU then
        let r := handle_sign env s st.state
        (r.1, { st with state := r.2 })
      else if st.state = .SUIVRE_LIGNE then follow_line d.lineInfo st
      else ([], st)
    | [] =>
      if st.state = .SUIVRE_LIGNE then follow_line d.lineInfo st
      else ([], st)

/-- Number of transitions into `TRAITER_PANNEAU` recorded in an event
list. -/
def enterHandlingCount (evs : List NavEvent) : ℕ :=
  (evs.filter (fun e => e = .setState .TRAITER_PANNEAU)).length

/-! ## Snapshot channel (`PiCarXController`, `main.py`)

`self.vision_queue = mp.Queue()` is an unbounded multiprocessing FIFO;
`vision_process` calls `put`, `navigation_process` calls
`get(timeout=0.1)`. -/

/-- A vision snapshot as `vision_process` enqueues it:
`{'line_info': ..., 'signs': ..., 'timestamp': ...}`. -/
structure Snapshot where
  lineInfo : LineInfo
  signs : List Sign
  timestamp : ℕ
deriving DecidableEq, Repr

/-- `self.vision_queue.put(snapshot)`: `mp.Queue()` has no `maxsize`, so a
put always appends behind the existing elements. -/
def visionPut (q : List Snapshot) (s : Snapshot) : List Snapshot := q ++ [s]

/-- `self.vision_queue.get(timeout=0.1)`: dequeue the oldest element
(FIFO); `none` on an empty queue models the timeout. -/
def visionGet (q : List Snapshot) : Option Snapshot × List Snapshot :=
  (q.head?, q.tail)

/-- One step of the producer/consumer pair on the snapshot channel: the
vision process puts some snapshot, or the navigation process gets one. -/
inductive ChanStep : List Snapshot → List Snapshot → Prop
  | put (s : Snapshot) (q : List Snapshot) : ChanStep q (visionPut q s)
  | get (q : List Snapshot) : ChanStep q (visionGet q).2

/-- Channel states reachable from the initial empty queue. -/
def ChanReachable (q : List Snapshot) : Prop :=
  Relation.ReflTransGen ChanStep [] q

/-- A concrete snapshot used in channel scenarios. -/
def snapA : Snapshot := ⟨⟨false, none⟩, [], 1⟩

/-- A later concrete snapshot used in channel scenarios. -/
def snapB : Snapshot := ⟨⟨true, some (320, 240)⟩, [⟨some .STOP⟩], 2⟩

/-! ## Theorems -/

/-- C1: for every valid distance sample `d` with `0 ≤ d ≤ 1000`, the
obstacle arbiter maps `d` to its band's directive: `d ≥ SafeDistance`
(Safe) yields steering angle 0 and forward motion at the avoidance cruise
speed 40; `DangerDistance ≤ d < SafeDistance` (Caution) yields steering
offset +30 and forward motion at cruise speed; `0 ≤ d < DangerDistance`
(Danger) yields steering offset -30 and backward motion at cruise speed.
In every band the sample itself is returned to the caller. -/
theorem avoid_obstacles_bands (d : ℚ) (h0 : 0 ≤ d) (h1 : d ≤ 1000) :
    (SafeDistance ≤ d →
      avoid_obstacles (some d) =
        ([.setDirServoAngle 0, .forward AVOID_OBSTACLES_SPEED], d)) ∧
    (DangerDistance ≤ d → d < SafeDistance →
      avoid_obstacles (some d) =
        ([.setDirServoAngle 30, .forward AVOID_OBSTACLES_SPEED, .sleep 100], d)) ∧
    (d < DangerDistance →
      avoid_obstacles (some d) =
        ([.setDirServoAngle (-30), .backward AVOID_OBSTACLES_SPEED, .sleep 500], d)) := by
  have hvalid : ¬ (d < 0 ∨ d > 1000) := by
    push_neg
    exact ⟨h0, h1⟩
  refine ⟨fun hs => ?_, fun hd hs => ?_, fun hd => ?_⟩
  · simp [avoid_obstacles, hvalid, hs]
  · simp [avoid_obstacles, hvalid, hs.not_le, hd]
  · have hs : ¬ SafeDistance ≤ d := by
      unfold SafeDistance
      unfold DangerDistance at hd
      intro h
      linarith
    simp [avoid_obstacles, hvalid, hs, hd.not_le]

/-- Witness for `avoid_obstacles_bands`: instantiation at the Caution-band
sample `d = 25`. -/
theorem avoid_obstacles_bands_witness :
    avoid_obstacles (some 25) =
      ([.setDirServoAngle 30, .forward AVOID_OBSTACLES_SPEED, .sleep 100], 25) :=
  (avoid_obstacles_bands 25 (by decide) (by decide)).2.1 (by decide) (by decide)

/-- C2: a negative or above-ceiling distance reading, and an exception
while reading the sensor (`none`), each resolve the tick to the Safe band:
the arbiter performs no Caution/Danger maneuver (its action list is empty)
and returns `SafeDistance + 1 ≥ SafeDistance`, so the caller
(`line_track`) does not skip line following; the fault is absorbed into a
normal return value rather than propagated. -/
theorem avoid_obstacles_fail_open (d : ℚ) (h : d < 0 ∨ d > 1000) :
    avoid_obstacles (some d) = ([], SafeDistance + 1) ∧
    avoid_obstacles none = ([], SafeDistance + 1) ∧
    SafeDistance ≤ SafeDistance + 1 ∧
    ¬ (avoid_obstacles (some d)).2 < SafeDistance := by
  have heq : avoid_obstacles (some d) = ([], SafeDistance + 1) := by
    simp [avoid_obstacles, h]
  refine ⟨heq, rfl, by norm_num, ?_⟩
  rw [heq]
  norm_num

/-- Witness for `avoid_obstacles_fail_open`: instantiation at the invalid
sample `d = -3`. -/
theorem avoid_obstacles_fail_open_witness :
    avoid_obstacles (some (-3)) = ([], SafeDistance + 1) ∧
    avoid_obstacles none = ([], SafeDistance + 1) ∧
    SafeDistance ≤ SafeDistance + 1 ∧
    ¬ (avoid_obstacles (some (-3))).2 < SafeDistance :=
  avoid_obstacles_fail_open (-3) (Or.inl (by decide))

/-- Embeds a bit of a 3-bit reading as the 0/1 value
`px.get_line_status` produces. -/
def bitVal (b : Bool) : ℕ := if b then 1 else 0

/-- C3: the line-state classifier is total over all 8 binary 3-bit
readings and follows the priority order center, left, right: `[0,0,0]`
classifies to `stop` (Lost); any reading with the center bit set
classifies to `forward`; otherwise a set left bit classifies to `right`
(steer right); otherwise a set right bit classifies to `left` (steer
left).  In particular the result is never `none` on a binary reading. -/
theorem get_status_total_priority (l c r : Bool) :
    get_status [bitVal l, bitVal c, bitVal r] =
      some (if l = false ∧ c = false ∧ r = false then .stop
            else if c then .forward
            else if l then .right
            else .left) := by
  cases l <;> cases c <;> cases r <;> decide

/-- The obstacle arbiter never reads the grayscale line sensor. -/
lemma avoid_obstacles_no_read (dr : Option ℚ) :
    PxAct.readGrayscale ∉ (avoid_obstacles dr).1 := by
  cases dr with
  | none => simp [avoid_obstacles]
  | some d =>
    simp only [avoid_obstacles]
    split_ifs <;> simp

/-- Every `line_track` branch puts the arbiter's actions first. -/
lemma line_track_starts_with_arbiter (dr : Option ℚ) (readings : ℕ → List ℕ)
    (fuel : ℕ) (last : Option LTState) :
    (line_track dr readings fuel last).1.take (avoid_obstacles dr).1.length =
      (avoid_obstacles dr).1 := by
  simp only [line_track]
  split_ifs with h1 h2
  · simp
  · cases hgm : get_status (readings 0) with
    | none => simp [hgm, List.take_left]
    | some s => cases s <;> simp_all [List.take_left]
  · simp [List.take_left]

/-- C4: in every tick, obstacle arbitration runs first (the tick's action
list always begins with the arbiter's actions), and whenever the arbited
distance is below `SafeDistance` the tick returns early: its actions are
exactly the arbiter's, which never include a grayscale line-sensor read,
no line-following directive is issued, and `last_line_state` is returned
unchanged. -/
theorem line_track_early_return (dr : Option ℚ) (readings : ℕ → List ℕ)
    (fuel : ℕ) (last : Option LTState)
    (h : (avoid_obstacles dr).2 < SafeDistance) :
    line_track dr readings fuel last = ((avoid_obstacles dr).1, last) ∧
    PxAct.readGrayscale ∉ (line_track dr readings fuel last).1 ∧
    (∀ (dr2 : Option ℚ) (rd : ℕ → List ℕ) (f : ℕ) (l : Option LTState),
      (line_track dr2 rd f l).1.take (avoid_obstacles dr2).1.length =
        (avoid_obstacles dr2).1) := by
  have heq : line_track dr readings fuel last = ((avoid_obstacles dr).1, last) := by
    unfold line_track
    simp [h]
  refine ⟨heq, ?_, line_track_starts_with_arbiter⟩
  rw [heq]
  exact avoid_obstacles_no_read dr

/-- Witness for `line_track_early_return`: a Danger-band tick at
`d = 15`. -/
theorem line_track_early_return_witness :
    line_track (some 15) (fun _ => [0, 1, 0]) 0 (some .forward) =
      ((avoid_obstacles (some 15)).1, some .forward) ∧
    PxAct.readGrayscale ∉ (line_track (some 15) (fun _ => [0, 1, 0]) 0 (some .forward)).1 ∧
    (∀ (dr2 : Option ℚ) (rd : ℕ → List ℕ) (f : ℕ) (l : Option LTState),
      (line_track dr2 rd f l).1.take (avoid_obstacles dr2).1.length =
        (avoid_obstacles dr2).1) :=
  line_track_early_return (some 15) (fun _ => [0, 1, 0]) 0 (some .forward) (by decide)

/-- The recovery polling loop exits within `fuel` samples exactly when
some sampled reading classifies differently from `last_line_state`. -/
lemma outHandleLoop_exits_iff (last : Option LTState) (fuel : ℕ) :
    ∀ readings : ℕ → List ℕ,
      (outHandleLoop last readings fuel).2 = true ↔
        ∃ n, n < fuel ∧ get_status (readings n) ≠ last := by
  induction fuel with
  | zero =>
    intro readings
    simp [outHandleLoop]
  | succ m ih =>
    intro readings
    by_cases h : get_status (readings 0) ≠ last
    · simp only [outHandleLoop, if_pos h]
      simp only [true_iff]
      exact ⟨0, Nat.succ_pos m, h⟩
    · simp only [outHandleLoop, if_neg h]
      rw [ih (fun i => readings (i + 1))]
      constructor
      · rintro ⟨n, hn, hne⟩
        exact ⟨n + 1, Nat.succ_lt_succ hn, hne⟩
      · rintro ⟨n, hn, hne⟩
        cases n with
        | zero => exact absurd hne h
        | succ k => exact ⟨k, Nat.lt_of_succ_lt_succ hn, hne⟩

/-- The recovery polling loop body performs only sensor reads: in
particular it contains no sleep, so the inter-sample delay of `outHandle`
is not taken between samples. -/
lemma outHandleLoop_only_reads (last : Option LTState) (fuel : ℕ) :
    ∀ readings : ℕ → List ℕ,
      ∀ a ∈ (outHandleLoop last readings fuel).1, a = PxAct.readGrayscale := by
  induction fuel with
  | zero =>
    intro readings
    simp [outHandleLoop]
  | succ m ih =>
    intro readings a ha
    unfold outHandleLoop at ha
    split_ifs at ha with h
    · simpa using ha
    · simp only [List.mem_cons] at ha
      rcases ha with ha | ha
      · exact ha
      · exact ih (fun i => readings (i + 1)) a ha

/-- C6 counterexample: the recovery loop's exit condition is not
"classified state differs from Lost".  With `last_line_state = 'left'`, a
reading classifying to Lost (`[0,0,0]` → `stop`) makes the loop exit on
the very first sample, and a reading classifying to a non-Lost state equal
to the last state (`[0,0,1]` → `left`) keeps the loop spinning. -/
theorem outHandle_exit_counterexample :
    get_status [0, 0, 0] = some .stop ∧
    (outHandleLoop (some .left) (fun _ => [0, 0, 0]) 1).2 = true ∧
    get_status [0, 0, 1] = some .left ∧
    some LTState.left ≠ some LTState.stop ∧
    (outHandleLoop (some .left) (fun _ => [0, 0, 1]) 5).2 = false := by
  decide

/-- C6 amended: the recovery procedure first steers to the opposite
extreme angle and backs up when the last state was a correction state,
then polls the line sensor, exiting exactly when the newly classified
state differs from the last known state (not from Lost); the minimal
delay is executed once after the loop exits rather than between samples
(the loop body holds nothing but sensor reads). -/
theorem outHandle_recovery (last : Option LTState) (readings : ℕ → List ℕ)
    (fuel : ℕ) :
    (last = some .left →
      (outHandle last readings fuel).1.take 2 = [.setDirServoAngle (-30), .backward 10]) ∧
    (last = some .right →
      (outHandle last readings fuel).1.take 2 = [.setDirServoAngle 30, .backward 10]) ∧
    ((outHandleLoop last readings fuel).2 = true ↔
      ∃ n, n < fuel ∧ get_status (readings n) ≠ last) ∧
    (∀ a ∈ (outHandleLoop last readings fuel).1, a = PxAct.readGrayscale) := by
  refine ⟨fun hl => ?_, fun hr => ?_, outHandleLoop_exits_iff last fuel readings,
    outHandleLoop_only_reads last fuel readings⟩
  · simp [outHandle, outHandleInit, hl]
  · simp [outHandle, outHandleInit, hr]

/-- Witness for `outHandle_recovery`: recovery from `last = 'left'` with a
first resample that classifies to `forward`. -/
theorem outHandle_recovery_witness :
    ((some LTState.left = some LTState.left →
      (outHandle (some .left) (fun _ => [0, 1, 0]) 1).1.take 2 =
        [.setDirServoAngle (-30), .backward 10]) ∧
    (some LTState.left = some LTState.right →
      (outHandle (some .left) (fun _ => [0, 1, 0]) 1).1.take 2 =
        [.setDirServoAngle 30, .backward 10]) ∧
    ((outHandleLoop (some .left) (fun _ => [0, 1, 0]) 1).2 = true ↔
      ∃ n, n < 1 ∧ get_status ((fun _ => [0, 1, 0]) n) ≠ some LTState.left) ∧
    (∀ a ∈ (outHandleLoop (some .left) (fun _ => [0, 1, 0]) 1).1,
      a = PxAct.readGrayscale)) :=
  outHandle_recovery (some .left) (fun _ => [0, 1, 0]) 1

/-- C8 counterexample: in a Safe-band tick (`d = 100`, center line bit
set) the tick issues both the arbiter's cruise directive
(`forward 40`) and the line-following directive (`forward 10`): two
motion directives reach the motors in the same tick. -/
theorem line_track_two_directives_counterexample :
    line_track (some 100) (fun _ => [0, 1, 0]) 0 (some .forward) =
      ([.setDirServoAngle 0, .forward AVOID_OBSTACLES_SPEED, .readGrayscale,
        .setDirServoAngle 0, .forward LINE_TRACK_SPEED], some .forward) ∧
    motionCount (line_track (some 100) (fun _ => [0, 1, 0]) 0 (some .forward)).1 = 2 := by
  decide

/-- C8 amended: the at-most-one-directive invariant holds only for
non-Safe ticks: when the arbited distance is below `SafeDistance` the tick
issues exactly one motion directive (the arbiter's); when the sample is
valid and Safe and the line reading classifies to `forward`, the arbiter's
cruise directive and the line-following directive are both issued, two
motion directives in the same tick (the line-following one last). -/
theorem line_track_directive_count (dr : Option ℚ) (readings : ℕ → List ℕ)
    (fuel : ℕ) (last : Option LTState) :
    ((avoid_obstacles dr).2 < SafeDistance →
      motionCount (line_track dr readings fuel last).1 = 1) ∧
    (∀ d : ℚ, dr = some d → SafeDistance ≤ d → d ≤ 1000 →
      get_status (readings 0) = some .forward →
      motionCount (line_track dr readings fuel last).1 = 2) := by
  constructor
  · intro h
    have heq : line_track dr readings fuel last = ((avoid_obstacles dr).1, last) := by
      unfold line_track
      simp [h]
    rw [heq]
    cases dr with
    | none =>
      exfalso
      have : (avoid_obstacles none).2 = SafeDistance + 1 := rfl
      rw [this] at h
      norm_num [SafeDistance] at h
    | some d =>
      simp only [avoid_obstacles] at h ⊢
      split_ifs at h ⊢ with h1 h2 h3
      · exfalso
        simp only at h
        norm_num [SafeDistance] at h
      · exfalso
        simp only at h
        exact absurd h (not_lt.mpr h2)
      · rfl
      · rfl
  · rintro d rfl hsafe hceil hgm
    have hvalid : ¬ (d < 0 ∨ d > 1000) := by
      push_neg
      unfold SafeDistance at hsafe
      constructor
      · linarith
      · exact hceil
    have hao : avoid_obstacles (some d) =
        ([.setDirServoAngle 0, .forward AVOID_OBSTACLES_SPEED], d) := by
      simp [avoid_obstacles, hvalid, hsafe]
    unfold line_track
    rw [hao]
    simp only [not_lt.mpr hsafe, if_false, hgm]
    rw [if_pos (by decide : (some LTState.forward ≠ some LTState.stop))]
    rfl

/-- Witness for `line_track_directive_count`: a Danger-band tick
(`d = 15`) for the first part and a Safe-band tick (`d = 100`, forward
reading) for the second. -/
theorem line_track_directive_count_witness :
    motionCount (line_track (some 15) (fun _ => [0, 1, 0]) 0 (some .forward)).1 = 1 ∧
    motionCount (line_track (some 100) (fun _ => [0, 1, 0]) 0 (some .forward)).1 = 2 :=
  ⟨(line_track_directive_count (some 15) (fun _ => [0, 1, 0]) 0 (some .forward)).1
      (by decide),
   (line_track_directive_count (some 100) (fun _ => [0, 1, 0]) 0 (some .forward)).2
      100 rfl (by decide) (by decide) (by decide)⟩

/-- C5 counterexample: a failed sign maneuver strands the state machine in
`TRAITER_PANNEAU`.  When `motor_controller.stop()` raises inside
`handle_stop_sign`, the `except` branch only logs: no fail-safe directive
is issued and `self.state` stays `TRAITER_PANNEAU`.  When the turn
maneuver raises at its `time.sleep`, the `except` branch does issue
`stop()` but also leaves `self.state` at `TRAITER_PANNEAU`. -/
theorem sign_maneuver_strands_counterexample :
    handle_sign ⟨.atStop, .ok⟩ ⟨some .STOP⟩ .SUIVRE_LIGNE =
      ([.setState .TRAITER_PANNEAU], .TRAITER_PANNEAU) ∧
    handle_turn_sign .atSleep 90 .TRAITER_PANNEAU =
      ([.motor (.setSpeed NAV_MIN_SPEED), .motor (.setSteering 90), .motor .stop],
        .TRAITER_PANNEAU) := by
  decide

/-- C5 amended: an exception during a sign maneuver is caught at the
maneuver boundary and, for the turn maneuver, a stop directive is
unconditionally issued as a fail-safe; the navigation state however does
not return to `SUIVRE_LIGNE`: both handlers leave `self.state` unchanged
on failure (stranding the machine in `TRAITER_PANNEAU` when invoked from
`handle_sign`), and a failure at the stop call of the stop-sign maneuver
issues no directive at all. -/
theorem sign_maneuver_fault (f : StopFail) (g : TurnFail) (angle : ℚ)
    (st : NavigationState) (hf : f ≠ .ok) (hg : g ≠ .ok) :
    (handle_stop_sign f st).2 = st ∧
    (handle_turn_sign g angle st).2 = st ∧
    NavEvent.motor .stop ∈ (handle_turn_sign g angle st).1 ∧
    (handle_stop_sign .atStop st).1 = [] ∧
    (handle_sign ⟨f, g⟩ ⟨some .STOP⟩ st).2 = .TRAITER_PANNEAU ∧
    (handle_sign ⟨f, g⟩ ⟨some .GAUCHE⟩ st).2 = .TRAITER_PANNEAU := by
  cases f <;> cases g <;>
    simp_all [handle_stop_sign, handle_turn_sign, handle_sign]

/-- Witness for `sign_maneuver_fault`: the stop call raising in the
stop-sign maneuver and the sleep raising in the turn maneuver. -/
theorem sign_maneuver_fault_witness :
    (handle_stop_sign .atStop .TRAITER_PANNEAU).2 = .TRAITER_PANNEAU ∧
    (handle_turn_sign .atSleep 90 .TRAITER_PANNEAU).2 = .TRAITER_PANNEAU ∧
    NavEvent.motor .stop ∈ (handle_turn_sign .atSleep 90 .TRAITER_PANNEAU).1 ∧
    (handle_stop_sign .atStop .TRAITER_PANNEAU).1 = [] ∧
    (handle_sign ⟨.atStop, .atSleep⟩ ⟨some .STOP⟩ .TRAITER_PANNEAU).2 =
      .TRAITER_PANNEAU ∧
    (handle_sign ⟨.atStop, .atSleep⟩ ⟨some .GAUCHE⟩ .TRAITER_PANNEAU).2 =
      .TRAITER_PANNEAU :=
  sign_maneuver_fault .atStop .atSleep 90 .TRAITER_PANNEAU
    (by decide) (by decide)

/-- C7: a vision update with a non-empty sign list while the state is not
already `TRAITER_PANNEAU` enters `TRAITER_PANNEAU` exactly once, acts only
on the first sign of the list (dropping the rest of the tick's signs
changes nothing), and — when the reaction runs without error — ends with
the state back at `SUIVRE_LIGNE`. -/
theorem update_from_vision_sign_once (env : SignEnv) (d : VisionData)
    (st : NavSt) (s : Sign) (rest : List Sign)
    (hsigns : d.signs = s :: rest) (hstate : st.state ≠ .TRAITER_PANNEAU)
    (hok1 : env.stopFail = .ok) (hok2 : env.turnFail = .ok) :
    enterHandlingCount (update_from_vision env (some d) st).1 = 1 ∧
    update_from_vision env (some d) st =
      update_from_vision env (some ⟨d.lineInfo, [s]⟩) st ∧
    (update_from_vision env (some d) st).2.state = .SUIVRE_LIGNE := by
  obtain ⟨li, signs⟩ := d
  simp only at hsigns
  subst hsigns
  obtain ⟨sf, tf⟩ := env
  simp only at hok1 hok2
  subst hok1
  subst hok2
  obtain ⟨cls⟩ := s
  cases cls with
  | none =>
    simp [update_from_vision, handle_sign, hstate, enterHandlingCount]
  | some c =>
    cases c <;>
      simp [update_from_vision, handle_sign, handle_stop_sign, handle_turn_sign,
        hstate, enterHandlingCount]

/-- Witness for `update_from_vision_sign_once`: two signs (STOP then
DROITE) arriving in one tick while following the line. -/
theorem update_from_vision_sign_once_witness :
    enterHandlingCount
      (update_from_vision ⟨.ok, .ok⟩
        (some ⟨⟨false, none⟩, [⟨some .STOP⟩, ⟨some .DROITE⟩]⟩)
        ⟨.SUIVRE_LIGNE, none⟩).1 = 1 ∧
    update_from_vision ⟨.ok, .ok⟩
        (some ⟨⟨false, none⟩, [⟨some .STOP⟩, ⟨some .DROITE⟩]⟩)
        ⟨.SUIVRE_LIGNE, none⟩ =
      update_from_vision ⟨.ok, .ok⟩
        (some ⟨⟨false, none⟩, [⟨some .STOP⟩]⟩) ⟨.SUIVRE_LIGNE, none⟩ ∧
    (update_from_vision ⟨.ok, .ok⟩
        (some ⟨⟨false, none⟩, [⟨some .STOP⟩, ⟨some .DROITE⟩]⟩)
        ⟨.SUIVRE_LIGNE, none⟩).2.state = .SUIVRE_LIGNE :=
  update_from_vision_sign_once ⟨.ok, .ok⟩
    ⟨⟨false, none⟩, [⟨some .STOP⟩, ⟨some .DROITE⟩]⟩ ⟨.SUIVRE_LIGNE, none⟩
    ⟨some .STOP⟩ [⟨some .DROITE⟩] rfl (by decide) rfl rfl

/-- C10: when `follow_line` is given a line report with `detected` false,
it issues exactly one directive — keep going at `min_speed` (no steering
change) if a last line position is recorded, otherwise a full stop — and
returns immediately: no backward recovery maneuver is performed and
neither `last_line_pos` nor any other navigator field is updated. -/
theorem follow_line_not_detected (li : LineInfo) (st : NavSt)
    (h : li.detected = false) :
    follow_line li st =
      (if st.lastLinePos.isSome then ([.motor (.setSpeed NAV_MIN_SPEED)], st)
       else ([.motor .stop], st)) ∧
    (follow_line li st).2 = st := by
  have heq : follow_line li st =
      (if st.lastLinePos.isSome then ([.motor (.setSpeed NAV_MIN_SPEED)], st)
       else ([.motor .stop], st)) := by
    simp [follow_line, h]
  refine ⟨heq, ?_⟩
  rw [heq]
  split_ifs <;> rfl

/-- Witness for `follow_line_not_detected`: line lost with a recorded
last position. -/
theorem follow_line_not_detected_witness :
    (follow_line ⟨false, none⟩ ⟨.SUIVRE_LIGNE, some (100, 200)⟩ =
      (if (some ((100 : ℤ), (200 : ℤ))).isSome then
        ([.motor (.setSpeed NAV_MIN_SPEED)],
          (⟨.SUIVRE_LIGNE, some (100, 200)⟩ : NavSt))
       else ([.motor .stop], ⟨.SUIVRE_LIGNE, some (100, 200)⟩))) ∧
    (follow_line ⟨false, none⟩ ⟨.SUIVRE_LIGNE, some (100, 200)⟩).2 =
      ⟨.SUIVRE_LIGNE, some (100, 200)⟩ :=
  follow_line_not_detected ⟨false, none⟩ ⟨.SUIVRE_LIGNE, some (100, 200)⟩ rfl

/-- C9 counterexample: the snapshot channel is `mp.Queue()`, an unbounded
FIFO.  The state `[snapA, snapB]` is reachable (two producer puts with no
intervening get), holds two snapshots at once, and the next consumer get
returns `snapA` — the older snapshot, not the most recent one. -/
theorem vision_queue_counterexample :
    ChanReachable [snapA, snapB] ∧
    2 ≤ [snapA, snapB].length ∧
    (visionGet [snapA, snapB]).1 = some snapA ∧
    snapA ≠ snapB := by
  refine ⟨?_, by decide, rfl, by decide⟩
  exact Relation.ReflTransGen.tail
    (Relation.ReflTransGen.single (ChanStep.put snapA []))
    (ChanStep.put snapB [snapA])

/-- C9 amended: the snapshot channel is an unbounded FIFO queue: a put
appends the new snapshot behind the existing ones (no snapshot is ever
dropped or replaced), a get delivers the oldest snapshot first, and for
every `n` a reachable channel state holds `n` queued snapshots. -/
theorem vision_queue_fifo_unbounded :
    (∀ (q : List Snapshot) (s : Snapshot), visionPut q s = q ++ [s]) ∧
    (∀ (s : Snapshot) (q : List Snapshot), visionGet (s :: q) = (some s, q)) ∧
    (∀ n : ℕ, ∃ q : List Snapshot, ChanReachable q ∧ q.length = n) := by
  refine ⟨fun q s => rfl, fun s q => rfl, fun n => ?_⟩
  induction n with
  | zero => exact ⟨[], Relation.ReflTransGen.refl, rfl⟩
  | succ m ih =>
    obtain ⟨q, hreach, hlen⟩ := ih
    refine ⟨visionPut q snapA, Relation.ReflTransGen.tail hreach (ChanStep.put snapA q), ?_⟩
    simp [visionPut, hlen]

end PiCarX
